import Mathlib

/-!
Shallow embedding of `crates/loro-core/src/container/text/tracker/y_span.rs`:
the `Status` activation state machine and the `YSpan` insertion span with its
merge / slice / containment / length operations, together with theorems about
the claimed properties.

The `ID` type and its `inc` method live in `id.rs`, which is outside the
excerpt; they are modelled from the spec (section 3: an identifier is an
`(actor, counter)` pair, "advanced by k" adds `k` to the counter). The spec
treats counters as plain integers, so `Counter` is embedded as `Int`; the
`as Counter` / `as i32` casts in the source are then lossless inclusions of
`usize` values, written `(n : Int)` below.
-/

/-- Modelled from the spec: an Identifier is a stable actor identity paired
with a per-actor counter (`id.rs` is outside the source excerpt). -/
structure ID where
  client_id : Nat
  counter : Int
deriving DecidableEq

/-- Modelled from the spec: `id` advanced by `i` counter steps, same actor. -/
def ID.inc (x : ID) (i : Int) : ID :=
  { client_id := x.client_id, counter := x.counter + i }

/-- `Status`: pending-application flag plus outstanding delete/undo counts. -/
structure Status where
  unapplied : Bool
  delete_times : Nat
  undo_times : Nat
deriving DecidableEq

/-- `Status::new`. -/
def Status.new : Status :=
  { unapplied := false, delete_times := 0, undo_times := 0 }

/-- `Status::is_activated`. -/
def Status.is_activated (s : Status) : Bool :=
  !s.unapplied && s.delete_times == 0 && s.undo_times == 0

/-- The six status transitions (`StatusChange`). -/
inductive StatusChange where
  | Apply
  | PreApply
  | Redo
  | Undo
  | Delete
  | UndoDelete
deriving DecidableEq

/-- `Status::apply`. The `usize` decrements in the `Redo` / `UndoDelete` arms
panic on underflow (the debug overflow assertion); the panic is embedded as
`none`. On success, returns whether the activation classification changed,
together with the updated status. -/
def Status.apply (s : Status) (change : StatusChange) : Option (Bool × Status) :=
  let activated := s.is_activated
  match change with
  | StatusChange.Apply =>
      let s2 := { s with unapplied := false }
      some (s2.is_activated != activated, s2)
  | StatusChange.PreApply =>
      let s2 := { s with unapplied := true }
      some (s2.is_activated != activated, s2)
  | StatusChange.Redo =>
      match s.undo_times with
      | 0 => none
      | n + 1 =>
          let s2 := { s with undo_times := n }
          some (s2.is_activated != activated, s2)
  | StatusChange.Undo =>
      let s2 := { s with undo_times := s.undo_times + 1 }
      some (s2.is_activated != activated, s2)
  | StatusChange.Delete =>
      let s2 := { s with delete_times := s.delete_times + 1 }
      some (s2.is_activated != activated, s2)
  | StatusChange.UndoDelete =>
      match s.delete_times with
      | 0 => none
      | n + 1 =>
          let s2 := { s with delete_times := n }
          some (s2.is_activated != activated, s2)

/-- `YSpan`: an identified, lengthed insertion run with causal origins. -/
structure YSpan where
  id : ID
  len : Nat
  status : Status
  origin_left : Option ID
  origin_right : Option ID
deriving DecidableEq

/-- `YSpan::last_id`: `self.id.inc(self.len as i32 - 1)`. -/
def YSpan.last_id (s : YSpan) : ID :=
  s.id.inc ((s.len : Int) - 1)

/-- `YSpan::contain_id`. -/
def YSpan.contain_id (s : YSpan) (x : ID) : Bool :=
  s.id.client_id == x.client_id
    && decide (s.id.counter ≤ x.counter)
    && decide (s.last_id.counter ≥ x.counter)

/-- `Mergable::is_mergable` for `YSpan` (merge context ignored as in source). -/
def YSpan.is_mergable (s other : YSpan) : Bool :=
  other.id.client_id == s.id.client_id
    && s.status == other.status
    && s.id.counter + (s.len : Int) == other.id.counter
    && s.origin_right == other.origin_right
    && some (s.id.inc ((s.len : Int) - 1)) == other.origin_left

/-- `Mergable::merge` for `YSpan`: the in-place mutation of the earlier span,
embedded as returning the updated value. -/
def YSpan.merge (s other : YSpan) : YSpan :=
  { s with origin_right := other.origin_right, len := s.len + other.len }

/-- `HasLength::content_len` for `YSpan`. -/
def YSpan.content_len (s : YSpan) : Nat :=
  s.len

/-- `HasLength::len` for `YSpan` (named `act_len` since `len` is the field):
the activation-adjusted length. -/
def YSpan.act_len (s : YSpan) : Nat :=
  if s.status.is_activated then s.len else 0

/-- `Sliceable::slice` for `YSpan`. The final `unreachable!` arm (reached when
`from > 0` and `to > content_len`) is embedded as `none`. The `to - from`
subtraction is the source's `usize` subtraction, meaningful under the caller
contract `from <= to`. -/
def YSpan.slice (s : YSpan) (from_ to_ : Nat) : Option YSpan :=
  if from_ = 0 ∧ to_ = s.content_len then
    some s
  else if from_ = 0 then
    some { origin_left := s.origin_left
           origin_right := some (s.id.inc (to_ : Int))
           id := s.id
           len := to_ - from_
           status := s.status }
  else if to_ < s.content_len then
    some { origin_left := some (s.id.inc ((from_ : Int) - 1))
           origin_right := some (s.id.inc (to_ : Int))
           id := s.id.inc (from_ : Int)
           len := to_ - from_
           status := s.status }
  else if to_ = s.content_len then
    some { origin_left := some (s.id.inc ((from_ : Int) - 1))
           origin_right := s.origin_right
           id := s.id.inc (from_ : Int)
           len := to_ - from_
           status := s.status }
  else
    none

/-- Concrete span used as the C4 counterexample input. -/
def exSpanNoRight : YSpan :=
  { id := { client_id := 0, counter := 0 }
    len := 2
    status := Status.new
    origin_left := none
    origin_right := none }

/-- Concrete span whose `origin_right` happens to point just past its first
unit, used in the C4 amended-claim witness. -/
def exSpanRightAligned : YSpan :=
  { id := { client_id := 0, counter := 0 }
    len := 2
    status := Status.new
    origin_left := none
    origin_right := some { client_id := 0, counter := 1 } }

/-- Concrete inactive zero-length span used as the C5 counterexample input
(spans of length 0 arise from `slice` with `from = to`). -/
def exSpanDeadEmpty : YSpan :=
  { id := { client_id := 0, counter := 0 }
    len := 0
    status := { unapplied := false, delete_times := 1, undo_times := 0 }
    origin_left := none
    origin_right := none }

/-- Concrete active span of length 2 used in witnesses. -/
def exSpanActive : YSpan :=
  { id := { client_id := 0, counter := 0 }
    len := 2
    status := Status.new
    origin_left := none
    origin_right := none }

/-- Concrete earlier unit span used in the C9 witness. -/
def exSpanA : YSpan :=
  { id := { client_id := 0, counter := 0 }
    len := 1
    status := Status.new
    origin_left := none
    origin_right := none }

/-- Concrete later unit span, mergeable after `exSpanA`, used in the C9
witness. -/
def exSpanB : YSpan :=
  { id := { client_id := 0, counter := 1 }
    len := 1
    status := Status.new
    origin_left := some { client_id := 0, counter := 0 }
    origin_right := none }

/-- C2: `is_mergable(A, B)` returns true iff the five conditions hold (same
actor, structurally equal statuses, `A.id.counter + A.len = B.id.counter`,
equal `origin_right`, and `B.origin_left = some A.last_id`), and `merge`
yields `origin_right = B.origin_right` and `len = A.len + B.len` while
keeping `A`'s `id`, `origin_left` and `status`. -/
theorem c2_merge_contract (A B : YSpan) :
    (A.is_mergable B = true ↔
      (A.id.client_id = B.id.client_id ∧ A.status = B.status ∧
        A.id.counter + (A.len : Int) = B.id.counter ∧
        A.origin_right = B.origin_right ∧
        B.origin_left = some A.last_id)) ∧
    (A.merge B).origin_right = B.origin_right ∧
    (A.merge B).len = A.len + B.len ∧
    (A.merge B).id = A.id ∧
    (A.merge B).origin_left = A.origin_left ∧
    (A.merge B).status = A.status := by
  refine ⟨?_, rfl, rfl, rfl, rfl, rfl⟩
  simp only [YSpan.is_mergable, YSpan.last_id, Bool.and_eq_true, beq_iff_eq]
  constructor
  · rintro ⟨⟨⟨⟨h1, h2⟩, h3⟩, h4⟩, h5⟩
    exact ⟨h1.symm, h2, h3, h4, h5.symm⟩
  · rintro ⟨h1, h2, h3, h4, h5⟩
    exact ⟨⟨⟨⟨h1.symm, h2⟩, h3⟩, h4⟩, h5.symm⟩

/-- C5 counterexample: for the inactive zero-length span (such spans arise
from `slice` with `from = to`), `len()` equals `content_len()` yet the span is
not activated, refuting the claimed "equality iff `is_activated()`". -/
theorem c5_counterexample :
    ¬(exSpanDeadEmpty.act_len = exSpanDeadEmpty.content_len ↔
        exSpanDeadEmpty.status.is_activated = true) := by
  decide

/-- C5 amended: `len()` returns the stored `len` when activated and `0`
otherwise, `content_len()` always returns the stored `len`, so
`len() <= content_len()` always, activation implies equality, `len() = 0`
whenever not activated, and the equality-iff-activated equivalence holds for
every span with positive stored length. -/
theorem c5_amended (S : YSpan) :
    S.act_len ≤ S.content_len ∧
    S.content_len = S.len ∧
    (S.status.is_activated = true → S.act_len = S.len) ∧
    (S.status.is_activated = false → S.act_len = 0) ∧
    (0 < S.len → (S.act_len = S.content_len ↔ S.status.is_activated = true)) := by
  unfold YSpan.act_len YSpan.content_len
  by_cases h : S.status.is_activated = true <;> simp [h] <;> omega

/-- C5 amended, witness at a concrete active span of positive length. -/
theorem c5_amended_witness :
    0 < exSpanActive.len ∧
    (exSpanActive.act_len = exSpanActive.content_len ↔
      exSpanActive.status.is_activated = true) :=
  ⟨by decide, (c5_amended exSpanActive).2.2.2.2 (by decide)⟩

/-- C7: `apply(Redo)` aborts (modelled as `none`) exactly when `undo_times`
is zero, `apply(UndoDelete)` aborts exactly when `delete_times` is zero, and
when the corresponding count is positive the transition succeeds and
decrements it by exactly one, leaving the other fields unchanged. -/
theorem c7_underflow_contract (s : Status) :
    (Status.apply s StatusChange.Redo = none ↔ s.undo_times = 0) ∧
    (Status.apply s StatusChange.UndoDelete = none ↔ s.delete_times = 0) ∧
    (0 < s.undo_times →
      ∃ b, Status.apply s StatusChange.Redo =
        some (b, { s with undo_times := s.undo_times - 1 })) ∧
    (0 < s.delete_times →
      ∃ b, Status.apply s StatusChange.UndoDelete =
        some (b, { s with delete_times := s.delete_times - 1 })) := by
  cases hu : s.undo_times <;> cases hd : s.delete_times <;>
    simp [Status.apply, hu, hd]

/-- C7 witness: concrete underflow aborts and a concrete successful
decrement. -/
theorem c7_witness :
    Status.apply (Status.mk false 0 0) StatusChange.Redo = none ∧
    Status.apply (Status.mk false 0 0) StatusChange.UndoDelete = none ∧
    (0 < (1 : Nat) ∧
      ∃ b, Status.apply (Status.mk false 1 1) StatusChange.Redo =
        some (b, Status.mk false 1 0)) :=
  ⟨(c7_underflow_contract (Status.mk false 0 0)).1.mpr rfl,
   (c7_underflow_contract (Status.mk false 0 0)).2.1.mpr rfl,
   by decide,
   (c7_underflow_contract (Status.mk false 1 1)).2.2.1 (by decide)⟩

/-- C8: `contain_id(x)` returns true iff `x` has the span's actor and its
counter lies in the inclusive range from `id.counter` to `last_id.counter`,
where `last_id` is `id` advanced by `len - 1`. -/
theorem c8_containment (S : YSpan) (x : ID) :
    S.last_id = S.id.inc ((S.len : Int) - 1) ∧
    (S.contain_id x = true ↔
      (x.client_id = S.id.client_id ∧ S.id.counter ≤ x.counter ∧
        x.counter ≤ S.last_id.counter)) := by
  refine ⟨rfl, ?_⟩
  simp only [YSpan.contain_id, Bool.and_eq_true, beq_iff_eq, decide_eq_true_eq,
    ge_iff_le, and_assoc]
  constructor
  · rintro ⟨h1, h2, h3⟩
    exact ⟨h1.symm, h2, h3⟩
  · rintro ⟨h1, h2, h3⟩
    exact ⟨h1.symm, h2, h3⟩

/-- C10: applying `Undo` and then `Redo` restores the status exactly, and the
two activation-flip reports of the pair are equal. -/
theorem c10_undo_redo_round_trip (s : Status) :
    ∃ b1 s1 b2, Status.apply s StatusChange.Undo = some (b1, s1) ∧
      Status.apply s1 StatusChange.Redo = some (b2, s) ∧ b1 = b2 := by
  refine ⟨_, _, _, rfl, rfl, ?_⟩
  simp [Status.apply, Status.is_activated]

/-- C1: for an active span `S` and any `k <= S.len`, merging `slice(0, k)`
with `slice(k, S.len)` via `merge` reproduces `S` in all five fields. -/
theorem c1_slice_merge_round_trip (S : YSpan) (k : Nat)
    (hact : S.status.is_activated = true) (hk : k ≤ S.len) :
    ((S.slice 0 k).bind fun a => (S.slice k S.len).map fun b => a.merge b) =
      some S := by
  obtain ⟨i, l, st, ol, orr⟩ := S
  by_cases hk0 : k = 0
  · subst hk0
    by_cases hl : l = 0
    · subst hl
      simp [YSpan.slice, YSpan.merge, YSpan.content_len]
    · have h0l : ¬((0 : Nat) = l) := fun h => hl h.symm
      simp [YSpan.slice, YSpan.merge, YSpan.content_len, h0l]
  · by_cases hkl : k = l
    · subst hkl
      simp [YSpan.slice, YSpan.merge, YSpan.content_len, hk0]
    · have hlt : k < l := lt_of_le_of_ne hk hkl
      simp [YSpan.slice, YSpan.merge, YSpan.content_len, hk0, hkl,
        Nat.lt_irrefl, YSpan.mk.injEq]
      omega

/-- C1 witness at a concrete active span of length 2, split at 1. -/
theorem c1_witness :
    exSpanActive.status.is_activated = true ∧ 1 ≤ exSpanActive.len ∧
    ((exSpanActive.slice 0 1).bind fun a =>
        (exSpanActive.slice 1 exSpanActive.len).map fun b => a.merge b) =
      some exSpanActive :=
  ⟨by decide, by decide,
   c1_slice_merge_round_trip exSpanActive 1 (by decide) (by decide)⟩

/-- C3: `slice(from, to)` with `from <= to <= len` succeeds, keeps the status,
has length `to - from`, and chooses `id` / `origin_left` / `origin_right`
according to the four-way case analysis on `from = 0` and `to = len`. -/
theorem c3_slice_cases (S : YSpan) (f t : Nat) (hft : f ≤ t) (ht : t ≤ S.len) :
    ∃ R, S.slice f t = some R ∧ R.status = S.status ∧ R.len = t - f ∧
      (f = 0 ∧ t = S.len → R = S) ∧
      (f = 0 ∧ t < S.len →
        R.id = S.id ∧ R.origin_left = S.origin_left ∧
          R.origin_right = some (S.id.inc (t : Int))) ∧
      (0 < f ∧ t = S.len →
        R.id = S.id.inc (f : Int) ∧
          R.origin_left = some (S.id.inc ((f : Int) - 1)) ∧
          R.origin_right = S.origin_right) ∧
      (0 < f ∧ t < S.len →
        R.id = S.id.inc (f : Int) ∧
          R.origin_left = some (S.id.inc ((f : Int) - 1)) ∧
          R.origin_right = some (S.id.inc (t : Int))) := by
  obtain ⟨i, l, st, ol, orr⟩ := S
  by_cases hf : f = 0
  · subst hf
    by_cases htl : t = l
    · subst htl
      simp [YSpan.slice, YSpan.content_len]
    · have hlt : t < l := lt_of_le_of_ne ht htl
      simp [YSpan.slice, YSpan.content_len, htl, hlt]
  · have hfpos : 0 < f := Nat.pos_of_ne_zero hf
    by_cases htl : t = l
    · subst htl
      simp [YSpan.slice, YSpan.content_len, hf, hfpos]
    · have hlt : t < l := lt_of_le_of_ne ht htl
      simp [YSpan.slice, YSpan.content_len, hf, hfpos, htl, hlt]

/-- C3 witness at a concrete span of length 2 with `from = 1`, `to = 2`. -/
theorem c3_witness :
    (1 : Nat) ≤ 2 ∧ 2 ≤ exSpanActive.len ∧
    (∃ R, exSpanActive.slice 1 2 = some R ∧ R.status = exSpanActive.status ∧
      R.len = 2 - 1 ∧
      (1 = 0 ∧ 2 = exSpanActive.len → R = exSpanActive) ∧
      (1 = 0 ∧ 2 < exSpanActive.len →
        R.id = exSpanActive.id ∧ R.origin_left = exSpanActive.origin_left ∧
          R.origin_right = some (exSpanActive.id.inc ((2 : Nat) : Int))) ∧
      (0 < 1 ∧ 2 = exSpanActive.len →
        R.id = exSpanActive.id.inc ((1 : Nat) : Int) ∧
          R.origin_left = some (exSpanActive.id.inc (((1 : Nat) : Int) - 1)) ∧
          R.origin_right = exSpanActive.origin_right) ∧
      (0 < 1 ∧ 2 < exSpanActive.len →
        R.id = exSpanActive.id.inc ((1 : Nat) : Int) ∧
          R.origin_left = some (exSpanActive.id.inc (((1 : Nat) : Int) - 1)) ∧
          R.origin_right = some (exSpanActive.id.inc ((2 : Nat) : Int)))) :=
  ⟨by decide, by decide, c3_slice_cases exSpanActive 1 2 (by decide) (by decide)⟩

/-- C4 counterexample: splitting the concrete span with no right origin at
`k = 1` yields fragments that are NOT mergeable — the left fragment's
`origin_right` points at the right fragment's start while the right fragment
keeps the original `origin_right`, so merge condition 4 fails. -/
theorem c4_counterexample :
    exSpanNoRight.slice 0 1 =
      some (YSpan.mk (ID.mk 0 0) 1 Status.new none (some (ID.mk 0 1))) ∧
    exSpanNoRight.slice 1 2 =
      some (YSpan.mk (ID.mk 0 1) 1 Status.new (some (ID.mk 0 0)) none) ∧
    (YSpan.mk (ID.mk 0 0) 1 Status.new none (some (ID.mk 0 1))).is_mergable
      (YSpan.mk (ID.mk 0 1) 1 Status.new (some (ID.mk 0 0)) none) = false := by
  decide

/-- C4 amended: for `0 < k < S.len` the fragments `slice(0, k)` and
`slice(k, S.len)` satisfy merge conditions 1, 2, 3 and 5 (same actor, equal
status, counter contiguity, left-causal contiguity), but `is_mergable`
returns true iff `S.origin_right = some (S.id advanced by k)`; in general the
fragments are not re-mergeable. -/
theorem c4_amended (S : YSpan) (k : Nat) (h1 : 0 < k) (h2 : k < S.len) :
    ∃ A B, S.slice 0 k = some A ∧ S.slice k S.len = some B ∧
      A.id.client_id = B.id.client_id ∧ A.status = B.status ∧
      A.id.counter + (A.len : Int) = B.id.counter ∧
      B.origin_left = some A.last_id ∧
      (A.is_mergable B = true ↔ S.origin_right = some (S.id.inc (k : Int))) := by
  obtain ⟨i, l, st, ol, orr⟩ := S
  have hk0 : ¬(k = 0) := Nat.pos_iff_ne_zero.mp h1
  have hkl : ¬(k = l) := Nat.ne_of_lt h2
  simp [YSpan.slice, YSpan.content_len, YSpan.is_mergable, YSpan.last_id,
    ID.inc, hk0, hkl, h2]
  constructor
  · rintro h
    exact h.symm
  · rintro h
    exact h.symm

/-- C4 amended, witness: a concrete span whose `origin_right` does point just
past the cut, so the fragments are mergeable there. -/
theorem c4_witness :
    (0 : Nat) < 1 ∧ 1 < exSpanRightAligned.len ∧
    (∃ A B, exSpanRightAligned.slice 0 1 = some A ∧
      exSpanRightAligned.slice 1 exSpanRightAligned.len = some B ∧
      A.id.client_id = B.id.client_id ∧ A.status = B.status ∧
      A.id.counter + (A.len : Int) = B.id.counter ∧
      B.origin_left = some A.last_id ∧
      (A.is_mergable B = true ↔
        exSpanRightAligned.origin_right =
          some (exSpanRightAligned.id.inc (((1 : Nat)) : Int)))) :=
  ⟨by decide, by decide, c4_amended exSpanRightAligned 1 (by decide) (by decide)⟩

/-- C6: a successful `apply` returns true iff the activation classification
differs across the transition; in particular `apply(Delete)` on an active
status reports a flip, and a second `apply(Delete)` reports none. -/
theorem c6_flip_reporting :
    (∀ (s : Status) (c : StatusChange) (b : Bool) (s2 : Status),
        Status.apply s c = some (b, s2) →
        (b = true ↔ s2.is_activated ≠ s.is_activated)) ∧
    (∀ s : Status, s.is_activated = true →
        ∃ s2 s3, Status.apply s StatusChange.Delete = some (true, s2) ∧
          Status.apply s2 StatusChange.Delete = some (false, s3)) := by
  constructor
  · intro s c b s2 h
    have step : ∀ s2c : Status,
        some ((s2c.is_activated != s.is_activated), s2c) = some (b, s2) →
        (b = true ↔ s2.is_activated ≠ s.is_activated) := by
      intro s2c hh
      simp only [Option.some.injEq, Prod.mk.injEq] at hh
      obtain ⟨rfl, rfl⟩ := hh
      exact bne_iff_ne
    cases c
    · exact step _ h
    · exact step _ h
    · simp only [Status.apply] at h
      cases hu : s.undo_times
      · rw [hu] at h
        simp at h
      · rw [hu] at h
        exact step _ h
    · exact step _ h
    · exact step _ h
    · simp only [Status.apply] at h
      cases hd : s.delete_times
      · rw [hd] at h
        simp at h
      · rw [hd] at h
        exact step _ h
  · intro s hs
    have h1 : s.unapplied = false ∧ s.delete_times = 0 ∧ s.undo_times = 0 := by
      simpa [Status.is_activated, and_assoc] using hs
    refine ⟨{ s with delete_times := s.delete_times + 1 },
            { s with delete_times := s.delete_times + 1 + 1 }, ?_, ?_⟩
    · simp [Status.apply, Status.is_activated, h1.1, h1.2.1, h1.2.2]
    · simp [Status.apply, Status.is_activated]

/-- C6 witness: the flip report for a concrete `Delete` on the default status,
and the two concrete `Delete` reports starting from the default status. -/
theorem c6_witness :
    (true = true ↔ (Status.mk false 1 0).is_activated ≠ Status.new.is_activated) ∧
    Status.new.is_activated = true ∧
    (∃ s2 s3, Status.apply Status.new StatusChange.Delete = some (true, s2) ∧
      Status.apply s2 StatusChange.Delete = some (false, s3)) :=
  ⟨c6_flip_reporting.1 Status.new StatusChange.Delete true (Status.mk false 1 0) rfl,
   by decide,
   c6_flip_reporting.2 Status.new (by decide)⟩

/-- C9: merging mergeable spans preserves the covered identifier range — the
merged span's `last_id` is `B.last_id`, and it contains exactly the
identifiers contained in `A` or in `B`. -/
theorem c9_merge_range (A B : YSpan) (h : A.is_mergable B = true) :
    (A.merge B).last_id = B.last_id ∧
    ∀ x : ID, ((A.merge B).contain_id x = true ↔
      (A.contain_id x = true ∨ B.contain_id x = true)) := by
  simp only [YSpan.is_mergable, Bool.and_eq_true, beq_iff_eq] at h
  obtain ⟨⟨⟨⟨hcl, hst⟩, hct⟩, hor⟩, hol⟩ := h
  constructor
  · simp only [YSpan.merge, YSpan.last_id, ID.inc, ID.mk.injEq]
    exact ⟨hcl.symm, by push_cast; omega⟩
  · intro x
    simp only [YSpan.merge, YSpan.contain_id, YSpan.last_id, ID.inc,
      Bool.and_eq_true, beq_iff_eq, decide_eq_true_eq, ge_iff_le]
    rw [hcl, ← hct]
    push_cast
    omega

/-- C9 witness at two concrete mergeable unit spans. -/
theorem c9_witness :
    exSpanA.is_mergable exSpanB = true ∧
    (exSpanA.merge exSpanB).last_id = exSpanB.last_id ∧
    ((exSpanA.merge exSpanB).contain_id (ID.mk 0 1) = true ↔
      (exSpanA.contain_id (ID.mk 0 1) = true ∨
        exSpanB.contain_id (ID.mk 0 1) = true)) :=
  ⟨by decide, (c9_merge_range exSpanA exSpanB (by decide)).1,
   (c9_merge_range exSpanA exSpanB (by decide)).2 (ID.mk 0 1)⟩
